import Mathlib

/-!
Verification of the recorder component: a shallow embedding of
homeassistant/components/recorder/__init__.py — the inline event filter, the
worker queue loop, the bounded connection-retry setup, and the run
bookkeeping — together with theorems checking the specification's claims
against it.  Collaborators that the repository keeps outside this file
(models.py, util.session_scope, homeassistant.core helpers) are modelled from
the specification and say so in their doc comments.
-/

/-- Value of EVENT_STATE_CHANGED from homeassistant.const. -/
def EVENT_STATE_CHANGED : String := "state_changed"

/-- Value of EVENT_TIME_CHANGED from homeassistant.const. -/
def EVENT_TIME_CHANGED : String := "time_changed"

/-- CONNECT_RETRY_WAIT = 10 from the source: the fixed backoff slept after a
failed connection attempt. -/
def CONNECT_RETRY_WAIT : Nat := 10

/-- Modelled from the spec: homeassistant.core.split_entity_id is not under
src/.  An entity identifier has the form domain.object_id and the code uses
split_entity_id(entity_id)[0], the domain part before the first dot. -/
def split_entity_id (entity_id : String) : String :=
  (entity_id.toList.takeWhile (fun c => !(c == '.'))).asString

/-- An event from the host bus: its type, the optional entity_id entry of its
data mapping (ATTR_ENTITY_ID present or not), and its fired time. -/
structure Event where
  event_type : String
  entity_id : Option String
  time_fired : Nat
deriving DecidableEq

/-- The recorder's filter configuration exactly as built in
Recorder.__init__: include_e and include_d are the include lists and exclude
is the concatenation of the excluded entity and domain lists. -/
structure FilterConfig where
  include_e : List String
  include_d : List String
  exclude : List String
deriving DecidableEq

/-- The filter decision inlined in Recorder.run (the two drop branches of the
entity-carrying case): true means the event is recorded, false that one of the
two branches drops it.  The conditions are transcribed verbatim: branch one is
(entity_id in exclude) or (domain in exclude and entity_id not in include_e);
branch two is (include_d and domain not in include_d) or (include_e and
entity_id not in include_e and not exclude). -/
def shouldRecord (cfg : FilterConfig) (entity_id : String) : Bool :=
  if cfg.exclude.contains entity_id ||
      (cfg.exclude.contains (split_entity_id entity_id) &&
        !cfg.include_e.contains entity_id) then
    false
  else if (!cfg.include_d.isEmpty &&
        !cfg.include_d.contains (split_entity_id entity_id)) ||
      (!cfg.include_e.isEmpty && !cfg.include_e.contains entity_id &&
        cfg.exclude.isEmpty) then
    false
  else
    true

/-- The specification's four filter rules, written from its words in its
stated order: rule 1, else rule 2, else rule 3, else record.  This is the
refinement counterpart that shouldRecord is compared against. -/
def specShouldRecord (cfg : FilterConfig) (e d : String) : Bool :=
  if cfg.exclude.contains e ||
      (cfg.exclude.contains d && !cfg.include_e.contains e) then
    false
  else if !cfg.include_d.isEmpty && !cfg.include_d.contains d then
    false
  else if !cfg.include_e.isEmpty && !cfg.include_e.contains e &&
      cfg.exclude.isEmpty then
    false
  else
    true

/-- A row of the events table (StoredEvent in the spec). -/
structure StoredEvent where
  event_id : Nat
  event_type : String
  time_fired : Nat
deriving DecidableEq

/-- A row of the states table (StoredState in the spec): event_id is the
nullable foreign key to the owning StoredEvent. -/
structure StoredState where
  event_id : Option Nat
  entity_id : String
  time_fired : Nat
deriving DecidableEq

/-- A row of the recorder_runs table (RunRecord in the spec).  The field end_
stands for the end column. -/
structure RunRecord where
  run_id : Nat
  start : Nat
  end_ : Option Nat
  created : Nat
  closed_incorrect : Bool
deriving DecidableEq

/-- Modelled from the spec: models.Events.from_event is not under src/.  Per
section 3 a StoredEvent is {event_id (generated, unique), type, data,
time_fired}; the identifier is generated at insertion, here passed in by the
caller holding the next fresh identifier. -/
def Events.from_event (e : Event) (event_id : Nat) : StoredEvent :=
  { event_id := event_id, event_type := e.event_type,
    time_fired := e.time_fired }

/-- Modelled from the spec: models.States.from_event is not under src/.  Per
section 3 a state-changed event carries an entity identifier which is copied
into the row; the event_id foreign key starts unset and is assigned by the
code in Recorder.run. -/
def States.from_event (e : Event) : StoredState :=
  { event_id := none, entity_id := e.entity_id.getD "",
    time_fired := e.time_fired }

/-- Result of one session_scope block: the rows the body added, whether the
scope committed, and whether it was released. -/
structure ScopeResult where
  events : List StoredEvent
  states : List StoredState
  committed : Bool
  released : Bool
deriving DecidableEq

/-- Modelled from the spec: util.session_scope is not under src/.  Per
sections 4.4 and 9 it is a transactional scope with deterministic
commit-or-rollback and release on every exit path (success or error); the
body's outcome is passed in as an Except value. -/
def session_scope
    (body : Except String (List StoredEvent × List StoredState)) :
    ScopeResult :=
  match body with
  | Except.ok r =>
      { events := r.1, states := r.2, committed := true, released := true }
  | Except.error _ =>
      { events := [], states := [], committed := false, released := true }

/-- The body of the per-event session scope in Recorder.run: one Events row
from the event; for a state-changed event additionally one States row whose
event_id is assigned from the just-created event row's identifier
(dbstate.event_id = dbevent.event_id). -/
def persistBody (e : Event) (next_id : Nat) :
    List StoredEvent × List StoredState :=
  let dbevent := Events.from_event e next_id
  if e.event_type = EVENT_STATE_CHANGED then
    ([dbevent], [{ States.from_event e with event_id := some dbevent.event_id }])
  else
    ([dbevent], [])

/-- An item of the recorder's queue: stop is the None sentinel, purge the
purge_task marker, ev a bus event. -/
inductive QueueItem
  | stop
  | purge
  | ev (e : Event)
deriving DecidableEq

/-- The worker's observable state: the run table, the in-memory current run,
the connection flag, the stored rows, and counters — dequeued counts
queue.get() calls, tasksDone counts queue.task_done() calls, filterEvals
counts evaluations of the filter rules, purges counts purge_old_data calls.
The field now is the time dt_util.utcnow() returns at shutdown. -/
structure WorkerState where
  runs : List RunRecord
  run_info : Option RunRecord
  engineOpen : Bool
  db_events : List StoredEvent
  db_states : List StoredState
  nextId : Nat
  dequeued : Nat
  tasksDone : Nat
  filterEvals : Nat
  purges : Nat
  now : Nat
deriving DecidableEq

/-- Recorder._close_run: set end = utcnow() on the in-memory run, persist it,
then release the in-memory reference (self.run_info = None). -/
def _close_run (st : WorkerState) : WorkerState :=
  match st.run_info with
  | none => st
  | some ri =>
      { st with
        runs := st.runs.map (fun r =>
          if r.run_id = ri.run_id then { r with end_ := some st.now } else r),
        run_info := none }

/-- Recorder._close_connection: dispose the engine and drop the session
factory. -/
def _close_connection (st : WorkerState) : WorkerState :=
  { st with engineOpen := false }

/-- The per-event session-scope block of Recorder.run, reached once an event
survives the time-tick check and the filter: run the scope over persistBody,
append the produced rows, advance the identifier counter and mark the queue
task done. -/
def persistStep (st : WorkerState) (e : Event) : WorkerState × Bool :=
  let scope := session_scope (Except.ok (persistBody e st.nextId))
  ({ st with
      db_events := st.db_events ++ scope.events,
      db_states := st.db_states ++ scope.states,
      nextId := st.nextId + 1,
      tasksDone := st.tasksDone + 1 }, true)

/-- One iteration of the consume loop of Recorder.run, in the source's branch
order: the None sentinel closes the run then the connection, marks the task
done and leaves the loop; the purge marker calls purge_old_data and continues
(the source calls no task_done here); a time-tick event is marked done and
skipped; an event carrying an entity identifier is dropped (marked done) when
the filter says so; everything else reaches the session scope.  The returned
Bool is true when the loop continues. -/
def processItem (cfg : FilterConfig) (st : WorkerState) :
    QueueItem → WorkerState × Bool
  | QueueItem.stop =>
      let std := { st with dequeued := st.dequeued + 1 }
      let st2 := _close_connection (_close_run std)
      ({ st2 with tasksDone := st2.tasksDone + 1 }, false)
  | QueueItem.purge =>
      let std := { st with dequeued := st.dequeued + 1 }
      ({ std with purges := std.purges + 1 }, true)
  | QueueItem.ev e =>
      let std := { st with dequeued := st.dequeued + 1 }
      if e.event_type = EVENT_TIME_CHANGED then
        ({ std with tasksDone := std.tasksDone + 1 }, true)
      else
        match e.entity_id with
        | some eid =>
            let st2 := { std with filterEvals := std.filterEvals + 1 }
            if shouldRecord cfg eid then persistStep st2 e
            else ({ st2 with tasksDone := st2.tasksDone + 1 }, true)
        | none => persistStep std e

/-- The consume loop of Recorder.run over the queued items, in FIFO order,
stopping when an iteration returns false (the stop sentinel). -/
def runLoop (cfg : FilterConfig) : WorkerState → List QueueItem → WorkerState
  | st, [] => st
  | st, item :: rest =>
      let p := processItem cfg st item
      if p.2 then runLoop cfg p.1 rest else p.1

/-- Recorder.block_till_done is queue.join(): with every queued item already
dequeued, it returns exactly when each get() has been matched by a
task_done(). -/
def block_till_done (st : WorkerState) : Bool :=
  st.tasksDone == st.dequeued

/-- Recorder._setup_run: close every run found with a null end (setting
closed_incorrect and end = recording_start), then insert the new current run
with start = recording_start and a null end, and keep it in memory. -/
def _setup_run (db : List RunRecord) (recording_start now new_id : Nat) :
    List RunRecord × RunRecord :=
  let closed := db.map (fun r =>
    if r.end_ = none then
      { r with closed_incorrect := true, end_ := some recording_start }
    else r)
  let ri : RunRecord :=
    { run_id := new_id, start := recording_start, end_ := none,
      created := now, closed_incorrect := false }
  (closed ++ [ri], ri)

/-- The storage predicate of run_information's query: a run with
start < point_in_time and end > point_in_time (a SQL comparison against a
null end is not satisfied). -/
def isCoveringRun (t : Nat) (r : RunRecord) : Bool :=
  decide (r.start < t) &&
    (match r.end_ with
     | some e => decide (t < e)
     | none => false)

/-- run_information: for an absent point in time, or one strictly later than
recording_start, return the in-memory current run; otherwise query storage
for the first run whose interval strictly contains the point (detached copy)
or none.  The Bool of the result records whether storage was queried. -/
def run_information (db : List RunRecord) (current : RunRecord)
    (recording_start : Nat) (t : Option Nat) : Option RunRecord × Bool :=
  match t with
  | none => (some current, false)
  | some u =>
      if recording_start < u then (some current, false)
      else (db.find? (isCoveringRun u), true)

/-- Outcome of the connection-setup retry loop at the top of Recorder.run:
whether async_db_ready was set, whether the persistent notification was
created, whether the loop ended on the fatal path, how many attempts were
made, and the total backoff slept. -/
structure SetupOutcome where
  ready : Bool
  notified : Bool
  fatal : Bool
  attempts : Nat
  slept : Nat
deriving DecidableEq

/-- One failed attempt updates the retry counter exactly as
retry = locals().setdefault(retry, 10) - 1 does: an unbound local reads as
the default 10 and the value read is decremented.  The unbound state is
Option.none. -/
def retryUpdate (retry : Option Nat) : Nat :=
  retry.getD 10 - 1

/-- The connection-setup retry loop of Recorder.run: attempt i either
succeeds (set the readiness event, break) or fails (sleep CONNECT_RETRY_WAIT,
decrement the retry counter per retryUpdate, and on zero create the
notification and return).  The structural fuel argument only pays for the
recursion; connectLoop_spec shows fuel = retry counter makes the zero-fuel
branch unreachable. -/
def connectLoopAux (succeeds : Nat → Bool) :
    Nat → Option Nat → Nat → SetupOutcome
  | _, _, 0 =>
      { ready := false, notified := true, fatal := true,
        attempts := 0, slept := 0 }
  | i, retry, fuel + 1 =>
      if succeeds i then
        { ready := true, notified := false, fatal := false,
          attempts := 1, slept := 0 }
      else
        let r := retryUpdate retry
        if r = 0 then
          { ready := false, notified := true, fatal := true,
            attempts := 1, slept := CONNECT_RETRY_WAIT }
        else
          let o := connectLoopAux succeeds (i + 1) (some r) fuel
          { o with attempts := o.attempts + 1,
                   slept := o.slept + CONNECT_RETRY_WAIT }

/-- The setup loop as entered by Recorder.run: attempt numbering from zero,
the retry local unbound, and the fuel at the counter's default. -/
def connectLoop (succeeds : Nat → Bool) : SetupOutcome :=
  connectLoopAux succeeds 0 none 10

/-- The worker state right after a successful _setup_run, before any item is
dequeued: the recovered run table, the new current run in memory, an open
engine, no stored rows and all counters at zero. -/
def initialWorkerState (runs : List RunRecord) (ri : RunRecord) (now : Nat) :
    WorkerState :=
  { runs := runs, run_info := some ri, engineOpen := true, db_events := [],
    db_states := [], nextId := 1, dequeued := 0, tasksDone := 0,
    filterEvals := 0, purges := 0, now := now }

/-- Overall outcome of Recorder.run: the setup phase's outcome, and the final
worker state when the consume phase was reached (none on the fatal setup
path, where the worker returns before _setup_run's effects matter). -/
structure RunOutcome where
  setup : SetupOutcome
  final : Option WorkerState
deriving DecidableEq

/-- Recorder.run end to end: the retry loop; on readiness the run recovery;
then, if the stop signal already resolved hass_started with the shutdown
sentinel (shutdown racing ahead of startup), return at once without touching
the queue; otherwise consume the queued items. -/
def runWorker (succeeds : Nat → Bool) (cfg : FilterConfig)
    (db : List RunRecord) (recording_start now new_id : Nat)
    (shutdownBeforeStart : Bool) (items : List QueueItem) : RunOutcome :=
  let s := connectLoop succeeds
  if s.ready then
    let p := _setup_run db recording_start now new_id
    let st0 := initialWorkerState p.1 p.2 now
    if shutdownBeforeStart then { setup := s, final := some st0 }
    else { setup := s, final := some (runLoop cfg st0 items) }
  else
    { setup := s, final := none }

/-- An empty filter configuration, used by concrete witnesses. -/
def emptyFilter : FilterConfig := ⟨[], [], []⟩

/-- A closed prior run (interval 1 to 5), used by concrete witnesses. -/
def priorRun : RunRecord := ⟨1, 1, some 5, 0, true⟩

/-- A current run opened at recording_start = 5, used by concrete
witnesses. -/
def sampleRun : RunRecord := ⟨2, 5, none, 5, false⟩

/-- A worker state right after setup over the sample runs, used by concrete
witnesses. -/
def sampleState : WorkerState := initialWorkerState [priorRun, sampleRun] sampleRun 9

/-- An if-chain returning false on a disjunction splits into two chained
ifs; this is the shape difference between the inline filter and the
specification's rule list. -/
theorem if_or_split (a b c : Bool) :
    (if a then false else if b || c then false else true) =
    (if a then false else if b then false else if c then false else true) := by
  cases a <;> cases b <;> cases c <;> rfl

/-- Appending one element never returns the same list. -/
theorem append_singleton_ne {α : Type} (l : List α) (x : α) :
    l ++ [x] ≠ l := by
  intro h
  have hl := congrArg List.length h
  simp only [List.length_append, List.length_cons, List.length_nil] at hl
  omega

/-- The events component of persistBody is always the single new row. -/
theorem persistBody_fst (e : Event) (n : Nat) :
    (persistBody e n).1 = [Events.from_event e n] := by
  unfold persistBody
  split <;> rfl

/-- C1: for every dequeued event carrying an entity identifier, the filter
decision inlined in Recorder.run equals the specification's rules 1 to 4
applied in the stated order to the entity and its domain (rule 1 first, so an
excluded domain is overridden per-entity by include_entities); consequently
the loop leaves the stored events unchanged exactly when the rules say
drop. -/
theorem filter_decision_matches_spec_rules (cfg : FilterConfig)
    (st : WorkerState) (e : Event) (eid : String)
    (he : e.entity_id = some eid) (ht : e.event_type ≠ EVENT_TIME_CHANGED) :
    shouldRecord cfg eid = specShouldRecord cfg eid (split_entity_id eid) ∧
    ((processItem cfg st (QueueItem.ev e)).1.db_events = st.db_events ↔
      specShouldRecord cfg eid (split_entity_id eid) = false) := by
  have h1 : shouldRecord cfg eid =
      specShouldRecord cfg eid (split_entity_id eid) := by
    unfold shouldRecord specShouldRecord
    exact if_or_split _ _ _
  refine ⟨h1, ?_⟩
  simp only [processItem, ht, if_false, he, h1]
  by_cases hs : specShouldRecord cfg eid (split_entity_id eid) = true
  · simp only [hs, if_true, persistStep, session_scope, persistBody_fst]
    constructor
    · intro hcon
      exact absurd hcon (append_singleton_ne _ _)
    · intro hfalse
      exact absurd hfalse (by decide)
  · rw [Bool.not_eq_true] at hs
    simp [hs]

/-- Witness for C1 at the spec's own scenario (exclude the light domain,
include light.kitchen per entity): the decision agrees with the rules and the
event is recorded. -/
theorem filter_decision_matches_spec_rules_witness :
    (shouldRecord ⟨["light.kitchen"], [], ["light"]⟩ "light.kitchen" =
      specShouldRecord ⟨["light.kitchen"], [], ["light"]⟩ "light.kitchen"
        (split_entity_id "light.kitchen")) ∧
    ((processItem ⟨["light.kitchen"], [], ["light"]⟩ sampleState
        (QueueItem.ev ⟨"state_changed", some "light.kitchen", 3⟩)).1.db_events =
        sampleState.db_events ↔
      specShouldRecord ⟨["light.kitchen"], [], ["light"]⟩ "light.kitchen"
        (split_entity_id "light.kitchen") = false) := by
  exact filter_decision_matches_spec_rules _ sampleState _ _ rfl (by decide)

/-- C2 at its failing input: dequeuing the purge marker runs the purge but
calls no task_done, so after a purge marker and the stop sentinel one
completion is missing and block_till_done (queue.join) can never return. -/
theorem purge_marker_skips_task_done :
    (runLoop emptyFilter sampleState [QueueItem.purge, QueueItem.stop]).dequeued = 2 ∧
    (runLoop emptyFilter sampleState [QueueItem.purge, QueueItem.stop]).tasksDone = 1 ∧
    (runLoop emptyFilter sampleState [QueueItem.purge, QueueItem.stop]).purges = 1 ∧
    block_till_done (runLoop emptyFilter sampleState [QueueItem.purge, QueueItem.stop]) = false := by
  decide

/-- Invariant of the retry loop: entered with fuel equal to the current value
the retry counter would read (and at least one), the loop makes at most fuel
attempts, ends fatally exactly when readiness was not signalled, notifies on
the fatal path, and sleeps the fixed backoff once per failed attempt. -/
theorem connectLoop_spec (succeeds : Nat → Bool) :
    ∀ fuel i (retry : Option Nat), retry.getD 10 = fuel → 1 ≤ fuel →
    1 ≤ (connectLoopAux succeeds i retry fuel).attempts ∧
    (connectLoopAux succeeds i retry fuel).attempts ≤ fuel ∧
    ((connectLoopAux succeeds i retry fuel).fatal = true ↔
      (connectLoopAux succeeds i retry fuel).ready = false) ∧
    ((connectLoopAux succeeds i retry fuel).fatal = true →
      (connectLoopAux succeeds i retry fuel).notified = true) ∧
    ((connectLoopAux succeeds i retry fuel).fatal = false →
      (connectLoopAux succeeds i retry fuel).ready = true ∧
      (connectLoopAux succeeds i retry fuel).notified = false) ∧
    ((connectLoopAux succeeds i retry fuel).ready = true →
      (connectLoopAux succeeds i retry fuel).slept =
        CONNECT_RETRY_WAIT * ((connectLoopAux succeeds i retry fuel).attempts - 1)) ∧
    ((connectLoopAux succeeds i retry fuel).ready = false →
      (connectLoopAux succeeds i retry fuel).slept =
        CONNECT_RETRY_WAIT * (connectLoopAux succeeds i retry fuel).attempts) := by
  intro fuel
  induction fuel with
  | zero =>
      intro i retry hfuel hpos
      exact absurd hpos (by omega)
  | succ n ih =>
      intro i retry hfuel hpos
      by_cases hsucc : succeeds i = true
      · simp only [connectLoopAux, hsucc, if_true]
        refine ⟨by omega, by omega, by simp, by simp, by simp, ?_, by simp⟩
        intro _
        simp [CONNECT_RETRY_WAIT]
      · rw [Bool.not_eq_true] at hsucc
        by_cases hr : retryUpdate retry = 0
        · simp only [connectLoopAux, hsucc, Bool.false_eq_true, if_false, hr,
            if_true]
          refine ⟨by omega, by omega, by simp, by simp, by simp, by simp, ?_⟩
          intro _
          simp [CONNECT_RETRY_WAIT]
        · have hru : retryUpdate retry = n := by
            unfold retryUpdate at hr ⊢
            omega
          have hn : 1 ≤ n := by omega
          have hrec := ih (i + 1) (some (retryUpdate retry)) (by simp [hru]) (by omega)
          simp only [connectLoopAux, hsucc, Bool.false_eq_true, if_false, hr,
            if_neg hr]
          obtain ⟨h1, h2, h3, h4, h5, h6, h7⟩ := hrec
          refine ⟨by simp, by simp; omega, by simpa using h3,
            by simpa using h4, by simpa using h5, ?_, ?_⟩
          · intro hready
            have := h6 hready
            simp only [CONNECT_RETRY_WAIT] at this ⊢
            omega
          · intro hready
            have := h7 hready
            simp only [CONNECT_RETRY_WAIT] at this ⊢
            omega

/-- C3: the connection-setup phase retries after each failure with the fixed
CONNECT_RETRY_WAIT backoff (slept once per failed attempt), makes at most ten
attempts in total, and on exhausting the bound ends fatally: it creates the
user-visible notification, never sets the readiness event, and the worker
returns before ever reaching the consume loop. -/
theorem connection_retry_bounded (succeeds : Nat → Bool) :
    1 ≤ (connectLoop succeeds).attempts ∧
    (connectLoop succeeds).attempts ≤ 10 ∧
    ((connectLoop succeeds).fatal = true ↔ (connectLoop succeeds).ready = false) ∧
    ((connectLoop succeeds).fatal = true → (connectLoop succeeds).notified = true) ∧
    ((connectLoop succeeds).fatal = false → (connectLoop succeeds).ready = true ∧
      (connectLoop succeeds).notified = false) ∧
    ((connectLoop succeeds).ready = true → (connectLoop succeeds).slept =
      CONNECT_RETRY_WAIT * ((connectLoop succeeds).attempts - 1)) ∧
    ((connectLoop succeeds).ready = false → (connectLoop succeeds).slept =
      CONNECT_RETRY_WAIT * (connectLoop succeeds).attempts) ∧
    (∀ cfg db rs now nid sd items, (connectLoop succeeds).ready = false →
      (runWorker succeeds cfg db rs now nid sd items).final = none) := by
  have h := connectLoop_spec succeeds 10 0 none rfl (by omega)
  obtain ⟨h1, h2, h3, h4, h5, h6, h7⟩ := h
  refine ⟨h1, h2, h3, h4, h5, h6, h7, ?_⟩
  intro cfg db rs now nid sd items hready
  unfold runWorker
  simp [hready]

/-- Witness for C3 on a connection that always fails: ten attempts, a hundred
time units slept, the notification created, readiness never signalled, and no
consume phase. -/
theorem connection_retry_bounded_witness :
    (connectLoop (fun _ => false)).attempts = 10 ∧
    (connectLoop (fun _ => false)).fatal = true ∧
    (connectLoop (fun _ => false)).notified = true ∧
    (connectLoop (fun _ => false)).ready = false ∧
    (connectLoop (fun _ => false)).slept =
      CONNECT_RETRY_WAIT * (connectLoop (fun _ => false)).attempts ∧
    (runWorker (fun _ => false) emptyFilter [] 5 9 2 false []).final = none := by
  refine ⟨by decide, by decide, by decide, by decide, ?_, ?_⟩
  · exact (connection_retry_bounded (fun _ => false)).2.2.2.2.2.2.1 (by decide)
  · exact (connection_retry_bounded (fun _ => false)).2.2.2.2.2.2.2
      emptyFilter [] 5 9 2 false [] (by decide)

/-- The rows a persist step appends are exactly those its session scope's
body produced. -/
theorem persistStep_rows (st : WorkerState) (e : Event) :
    (persistStep st e).1.db_events =
      st.db_events ++ [Events.from_event e st.nextId] ∧
    (persistStep st e).1.db_states = st.db_states ++ (persistBody e st.nextId).2 := by
  unfold persistStep session_scope
  exact ⟨by simp [persistBody_fst], by simp⟩

/-- The states component of persistBody is the single linked row for a
state-changed event and empty otherwise. -/
theorem persistBody_snd (e : Event) (n : Nat) :
    (persistBody e n).2 = (if e.event_type = EVENT_STATE_CHANGED then
      [{ States.from_event e with event_id := some n }] else []) := by
  unfold persistBody
  split <;> rfl

/-- C4: an accepted non-time-tick event is persisted through one per-event
transactional scope: exactly one StoredEvent row is inserted, and a
StoredState row is inserted if and only if the event is state-changed, its
event_id equal to the just-generated StoredEvent identifier; the scope
commits on the success path and is released on every exit path. -/
theorem accepted_event_persisted (cfg : FilterConfig) (st : WorkerState)
    (e : Event) (ht : e.event_type ≠ EVENT_TIME_CHANGED)
    (hacc : ∀ eid, e.entity_id = some eid → shouldRecord cfg eid = true) :
    (processItem cfg st (QueueItem.ev e)).1.db_events =
      st.db_events ++ [Events.from_event e st.nextId] ∧
    (processItem cfg st (QueueItem.ev e)).1.db_states =
      st.db_states ++ (if e.event_type = EVENT_STATE_CHANGED then
        [{ States.from_event e with event_id := some st.nextId }] else []) ∧
    (e.event_type = EVENT_STATE_CHANGED →
      (persistBody e st.nextId).2 =
        [{ States.from_event e with
            event_id := some (Events.from_event e st.nextId).event_id }]) ∧
    (e.event_type ≠ EVENT_STATE_CHANGED → (persistBody e st.nextId).2 = []) ∧
    (session_scope (Except.ok (persistBody e st.nextId))).committed = true ∧
    (∀ body, (session_scope body).released = true) := by
  have key : (processItem cfg st (QueueItem.ev e)).1.db_events =
      st.db_events ++ [Events.from_event e st.nextId] ∧
      (processItem cfg st (QueueItem.ev e)).1.db_states =
      st.db_states ++ (persistBody e st.nextId).2 := by
    cases he : e.entity_id with
    | none =>
        simp only [processItem, if_neg ht, he]
        exact ⟨(persistStep_rows _ e).1, (persistStep_rows _ e).2⟩
    | some eid =>
        have hrec := hacc eid he
        simp only [processItem, if_neg ht, he, hrec, if_true]
        exact ⟨(persistStep_rows _ e).1, (persistStep_rows _ e).2⟩
  refine ⟨key.1, key.2.trans (by rw [persistBody_snd]), ?_, ?_, rfl, ?_⟩
  · intro h
    rw [persistBody_snd, if_pos h]
    rfl
  · intro h
    rw [persistBody_snd, if_neg h]
  · intro body
    cases body <;> rfl

/-- Witness for C4 on a concrete accepted state-changed event: one event row
appended and the linked state row produced. -/
theorem accepted_event_persisted_witness :
    (processItem emptyFilter sampleState
        (QueueItem.ev ⟨"state_changed", some "light.kitchen", 3⟩)).1.db_events =
      sampleState.db_events ++
        [Events.from_event ⟨"state_changed", some "light.kitchen", 3⟩
          sampleState.nextId] ∧
    (persistBody ⟨"state_changed", some "light.kitchen", 3⟩ sampleState.nextId).2 =
      [{ States.from_event ⟨"state_changed", some "light.kitchen", 3⟩ with
          event_id := some (Events.from_event
            ⟨"state_changed", some "light.kitchen", 3⟩ sampleState.nextId).event_id }] := by
  have h := accepted_event_persisted emptyFilter sampleState
    ⟨"state_changed", some "light.kitchen", 3⟩ (by decide)
    (fun eid hh => by injection hh with h2; rw [← h2]; decide)
  exact ⟨h.1, h.2.2.1 rfl⟩

/-- C8: a dequeued time-tick event is discarded before the filter and before
any storage access: the only change is the completed queue counters (no
stored row, no filter evaluation). -/
theorem time_tick_discarded (cfg : FilterConfig) (st : WorkerState)
    (e : Event) (h : e.event_type = EVENT_TIME_CHANGED) :
    processItem cfg st (QueueItem.ev e) =
      ({ st with
          dequeued := st.dequeued + 1,
          tasksDone := st.tasksDone + 1 }, true) := by
  simp [processItem, h]

/-- Witness for C8 on a concrete time-tick event. -/
theorem time_tick_discarded_witness :
    processItem emptyFilter sampleState (QueueItem.ev ⟨"time_changed", none, 4⟩) =
      ({ sampleState with
          dequeued := sampleState.dequeued + 1,
          tasksDone := sampleState.tasksDone + 1 }, true) :=
  time_tick_discarded emptyFilter sampleState ⟨"time_changed", none, 4⟩ rfl

/-- C9: a dequeued non-time-tick event whose data carries no entity
identifier is persisted exactly once as a StoredEvent, under every filter
configuration, with the filter rules never evaluated. -/
theorem no_entity_event_always_recorded (cfg : FilterConfig)
    (st : WorkerState) (e : Event) (ht : e.event_type ≠ EVENT_TIME_CHANGED)
    (hne : e.entity_id = none) :
    (processItem cfg st (QueueItem.ev e)).1.db_events =
      st.db_events ++ [Events.from_event e st.nextId] ∧
    (processItem cfg st (QueueItem.ev e)).1.db_events.length =
      st.db_events.length + 1 ∧
    (processItem cfg st (QueueItem.ev e)).1.filterEvals = st.filterEvals ∧
    (processItem cfg st (QueueItem.ev e)).2 = true := by
  have h1 : (processItem cfg st (QueueItem.ev e)).1.db_events =
      st.db_events ++ [Events.from_event e st.nextId] := by
    simp only [processItem, if_neg ht, hne]
    exact (persistStep_rows _ e).1
  refine ⟨h1, by rw [h1]; simp, ?_, ?_⟩
  · simp only [processItem, if_neg ht, hne]
    rfl
  · simp only [processItem, if_neg ht, hne]
    rfl

/-- Witness for C9 on a concrete entity-free event under a filter
configuration whose lists are all non-empty. -/
theorem no_entity_event_always_recorded_witness :
    (processItem ⟨["a.b"], ["sensor"], ["light"]⟩ sampleState
        (QueueItem.ev ⟨"custom", none, 4⟩)).1.db_events =
      sampleState.db_events ++
        [Events.from_event ⟨"custom", none, 4⟩ sampleState.nextId] ∧
    (processItem ⟨["a.b"], ["sensor"], ["light"]⟩ sampleState
        (QueueItem.ev ⟨"custom", none, 4⟩)).1.filterEvals =
      sampleState.filterEvals := by
  have h := no_entity_event_always_recorded ⟨["a.b"], ["sensor"], ["light"]⟩
    sampleState ⟨"custom", none, 4⟩ (by decide) rfl
  exact ⟨h.1, h.2.2.1⟩

/-- Closing one run by identifier never increases the number of runs with a
null end. -/
theorem countP_close_map_le (l : List RunRecord) (rid t : Nat) :
    (l.map (fun r => if r.run_id = rid then { r with end_ := some t } else r)).countP
      (fun r => r.end_.isNone) ≤ l.countP (fun r => r.end_.isNone) := by
  induction l with
  | nil => simp
  | cons a l2 ih =>
      simp only [List.map_cons, List.countP_cons]
      by_cases h : a.run_id = rid
      · rw [if_pos h]
        simp only [Option.isNone_some, if_neg (by decide : ¬(false = true)),
          Nat.add_zero]
        exact Nat.le_trans ih (Nat.le_add_right _ _)
      · rw [if_neg h]
        omega

/-- C5: after _setup_run, every run that previously had a null end is present
closed with closed_incorrect and end = recording_start; the only run with a
null end is the newly inserted current run (so exactly one run is open), the
new run starts at recording_start and is in the table; and _close_run never
increases the number of open runs, so at most one stays open afterwards. -/
theorem setup_run_recovery (db : List RunRecord) (rs now nid : Nat) :
    (∀ r ∈ db, r.end_ = none →
      { r with closed_incorrect := true, end_ := some rs } ∈
        (_setup_run db rs now nid).1) ∧
    (∀ r ∈ (_setup_run db rs now nid).1, r.end_ = none →
      r = (_setup_run db rs now nid).2) ∧
    ((_setup_run db rs now nid).1.countP (fun r => r.end_.isNone) = 1) ∧
    (_setup_run db rs now nid).2.start = rs ∧
    (_setup_run db rs now nid).2.end_ = none ∧
    (_setup_run db rs now nid).2 ∈ (_setup_run db rs now nid).1 ∧
    (∀ st : WorkerState,
      (_close_run st).runs.countP (fun r => r.end_.isNone) ≤
        st.runs.countP (fun r => r.end_.isNone)) := by
  refine ⟨?_, ?_, ?_, rfl, rfl, ?_, ?_⟩
  · intro r hr he
    unfold _setup_run
    exact List.mem_append_left _ (List.mem_map.mpr ⟨r, hr, by rw [if_pos he]⟩)
  · intro r hr he
    unfold _setup_run at hr
    rcases List.mem_append.mp hr with hmap | hri
    · obtain ⟨a, ha, rfl⟩ := List.mem_map.mp hmap
      by_cases hae : a.end_ = none
      · rw [if_pos hae] at he
        simp at he
      · rw [if_neg hae] at he
        exact absurd he hae
    · exact List.mem_singleton.mp hri
  · unfold _setup_run
    rw [List.countP_append]
    have hmap0 : (db.map (fun r => if r.end_ = none then
        { r with closed_incorrect := true, end_ := some rs } else r)).countP
        (fun r => r.end_.isNone) = 0 := by
      rw [List.countP_eq_zero]
      intro a ha
      obtain ⟨b, hb, rfl⟩ := List.mem_map.mp ha
      by_cases hbe : b.end_ = none
      · rw [if_pos hbe]
        simp
      · rw [if_neg hbe]
        rw [Option.isNone_iff_eq_none]
        exact hbe
    rw [hmap0]
    simp [List.countP_cons]
  · unfold _setup_run
    exact List.mem_append_right _ (List.mem_singleton.mpr rfl)
  · intro st
    unfold _close_run
    cases h : st.run_info with
    | none => exact Nat.le_refl _
    | some ri => exact countP_close_map_le st.runs ri.run_id st.now

/-- Witness for C5 on a table holding one open and one closed prior run. -/
theorem setup_run_recovery_witness :
    ({ (⟨7, 0, none, 0, false⟩ : RunRecord) with
        closed_incorrect := true, end_ := some 5 } ∈
      (_setup_run [⟨7, 0, none, 0, false⟩, priorRun] 5 7 9).1) ∧
    ((_setup_run [⟨7, 0, none, 0, false⟩, priorRun] 5 7 9).1.countP
      (fun r => r.end_.isNone) = 1) ∧
    (_setup_run [⟨7, 0, none, 0, false⟩, priorRun] 5 7 9).2.end_ = none := by
  have h := setup_run_recovery [⟨7, 0, none, 0, false⟩, priorRun] 5 7 9
  exact ⟨h.1 _ (List.mem_cons_self _ _) rfl, h.2.2.1, h.2.2.2.2.1⟩

/-- C6 counterexample: at the boundary point t = recording_start the code
takes the storage path (its in-memory shortcut needs t strictly later than
recording_start), and with the prior run ending exactly at recording_start
and the current run starting there the query finds nothing, so the claim's
prediction — the in-memory current run, without a storage query — is false
there. -/
theorem run_information_at_recording_start_cex :
    run_information [priorRun, sampleRun] sampleRun 5 (some 5) = (none, true) ∧
    run_information [priorRun, sampleRun] sampleRun 5 (some 5) ≠
      (some sampleRun, false) := by
  decide

/-- C6 amended: run_information returns the in-memory current run without a
storage query for an absent point in time or one strictly later than
recording_start; otherwise it queries storage and returns the first stored
run whose interval strictly contains the point (a run it returns is in the
table and covers the point), or none exactly when no stored run covers the
point. -/
theorem run_information_amended (db : List RunRecord) (current : RunRecord)
    (rs u : Nat) :
    run_information db current rs none = (some current, false) ∧
    run_information db current rs (some u) =
      (if rs < u then (some current, false)
       else (db.find? (isCoveringRun u), true)) ∧
    (∀ r, db.find? (isCoveringRun u) = some r →
      r ∈ db ∧ r.start < u ∧ ∃ e, r.end_ = some e ∧ u < e) ∧
    (db.find? (isCoveringRun u) = none ↔ ∀ r ∈ db, isCoveringRun u r = false) := by
  refine ⟨rfl, rfl, ?_, ?_⟩
  · intro r hfind
    have hmem := List.mem_of_find?_eq_some hfind
    have hp := List.find?_some hfind
    unfold isCoveringRun at hp
    rw [Bool.and_eq_true] at hp
    obtain ⟨hp1, hp2⟩ := hp
    refine ⟨hmem, of_decide_eq_true hp1, ?_⟩
    cases hre : r.end_ with
    | none =>
        rw [hre] at hp2
        simp at hp2
    | some x =>
        rw [hre] at hp2
        simp only [decide_eq_true_eq] at hp2
        exact ⟨x, rfl, hp2⟩
  · constructor
    · intro hnone r hr
      have hnp := List.find?_eq_none.mp hnone r hr
      rwa [Bool.not_eq_true] at hnp
    · intro hall
      rw [List.find?_eq_none]
      intro x hx
      rw [hall x hx]
      decide

/-- Witness for C6: the prior-run interval 1 to 5 covers the point 3, so the
storage path returns it; the point 7 is strictly later than recording_start
5, so the in-memory current run comes back without a query. -/
theorem run_information_amended_witness :
    run_information [priorRun] sampleRun 5 none = (some sampleRun, false) ∧
    run_information [priorRun] sampleRun 5 (some 3) = (some priorRun, true) ∧
    run_information [priorRun] sampleRun 5 (some 7) = (some sampleRun, false) ∧
    priorRun.start < 3 ∧ (∃ e, priorRun.end_ = some e ∧ 3 < e) := by
  have h := run_information_amended [priorRun] sampleRun 5 3
  have h7 := run_information_amended [priorRun] sampleRun 5 7
  have hfind : ([priorRun].find? (isCoveringRun 3)) = some priorRun := by decide
  have hcov := h.2.2.1 priorRun hfind
  refine ⟨h.1, ?_, ?_, hcov.2.1, hcov.2.2⟩
  · rw [h.2.1, if_neg (by omega), hfind]
  · rw [h7.2.1, if_pos (by omega)]

/-- C7: dequeuing the stop sentinel first closes the current run (its end set
to the shutdown time and persisted, the in-memory reference released), then
closes the connection, marks the task done and leaves the loop; the consume
loop over a queue headed by the stop sentinel ends in exactly that state. -/
theorem stop_marker_closes_run_then_connection (cfg : FilterConfig)
    (st : WorkerState) (ri : RunRecord) (hri : st.run_info = some ri)
    (hmem : ri ∈ st.runs) :
    (processItem cfg st QueueItem.stop).2 = false ∧
    (processItem cfg st QueueItem.stop).1.run_info = none ∧
    (processItem cfg st QueueItem.stop).1.engineOpen = false ∧
    ({ ri with end_ := some st.now } ∈ (processItem cfg st QueueItem.stop).1.runs) ∧
    (∀ r ∈ (processItem cfg st QueueItem.stop).1.runs, r.run_id = ri.run_id →
      r.end_ = some st.now) ∧
    (processItem cfg st QueueItem.stop).1.tasksDone = st.tasksDone + 1 ∧
    (∀ rest, runLoop cfg st (QueueItem.stop :: rest) =
      (processItem cfg st QueueItem.stop).1) := by
  have hfalse : (processItem cfg st QueueItem.stop).2 = false := rfl
  have hred : (processItem cfg st QueueItem.stop).1 =
      { st with
          runs := st.runs.map (fun r =>
            if r.run_id = ri.run_id then { r with end_ := some st.now } else r),
          run_info := none,
          engineOpen := false,
          dequeued := st.dequeued + 1,
          tasksDone := st.tasksDone + 1 } := by
    simp only [processItem, _close_run, _close_connection, hri]
  refine ⟨hfalse, ?_, ?_, ?_, ?_, ?_, ?_⟩
  · rw [hred]
  · rw [hred]
  · rw [hred]
    exact List.mem_map.mpr ⟨ri, hmem, by rw [if_pos rfl]⟩
  · intro r hr hrid
    rw [hred] at hr
    obtain ⟨a, ha, rfl⟩ := List.mem_map.mp hr
    by_cases h : a.run_id = ri.run_id
    · rw [if_pos h]
    · rw [if_neg h] at hrid
      exact absurd hrid h
  · rw [hred]
  · intro rest
    simp only [runLoop, hfalse, Bool.false_eq_true, if_false]

/-- Witness for C7 on the sample state whose current run is sampleRun. -/
theorem stop_marker_closes_run_then_connection_witness :
    (processItem emptyFilter sampleState QueueItem.stop).2 = false ∧
    (processItem emptyFilter sampleState QueueItem.stop).1.run_info = none ∧
    (processItem emptyFilter sampleState QueueItem.stop).1.engineOpen = false ∧
    ({ sampleRun with end_ := some sampleState.now } ∈
      (processItem emptyFilter sampleState QueueItem.stop).1.runs) := by
  have h := stop_marker_closes_run_then_connection emptyFilter sampleState
    sampleRun rfl (by decide)
  exact ⟨h.1, h.2.1, h.2.2.1, h.2.2.2.1⟩

/-- C10: when the stop signal resolves the startup gate before the start
signal, the worker returns at once: nothing is dequeued or persisted, neither
_close_run nor _close_connection runs, the run created at startup keeps its
null end and the engine stays open. -/
theorem shutdown_before_start_skips_loop (succeeds : Nat → Bool)
    (cfg : FilterConfig) (db : List RunRecord) (rs now nid : Nat)
    (items : List QueueItem)
    (hready : (connectLoop succeeds).ready = true) :
    (runWorker succeeds cfg db rs now nid true items).final =
      some (initialWorkerState (_setup_run db rs now nid).1
        (_setup_run db rs now nid).2 now) ∧
    ∀ st, (runWorker succeeds cfg db rs now nid true items).final = some st →
      st.dequeued = 0 ∧ st.tasksDone = 0 ∧ st.db_events = [] ∧
      st.db_states = [] ∧ st.engineOpen = true ∧
      st.run_info = some (_setup_run db rs now nid).2 ∧
      (_setup_run db rs now nid).2.end_ = none ∧
      (_setup_run db rs now nid).2 ∈ st.runs := by
  have hfin : (runWorker succeeds cfg db rs now nid true items).final =
      some (initialWorkerState (_setup_run db rs now nid).1
        (_setup_run db rs now nid).2 now) := by
    unfold runWorker
    simp [hready]
  refine ⟨hfin, ?_⟩
  intro st hst
  rw [hfin] at hst
  injection hst with h2
  rw [← h2]
  refine ⟨rfl, rfl, rfl, rfl, rfl, rfl, rfl, ?_⟩
  unfold initialWorkerState _setup_run
  exact List.mem_append_right _ (List.mem_singleton.mpr rfl)

/-- Witness for C10 with a connection that succeeds at once and one queued
event that is then never dequeued. -/
theorem shutdown_before_start_skips_loop_witness :
    (runWorker (fun _ => true) emptyFilter [priorRun] 5 9 2 true
        [QueueItem.ev ⟨"state_changed", some "light.kitchen", 3⟩]).final =
      some (initialWorkerState (_setup_run [priorRun] 5 9 2).1
        (_setup_run [priorRun] 5 9 2).2 9) ∧
    (initialWorkerState (_setup_run [priorRun] 5 9 2).1
      (_setup_run [priorRun] 5 9 2).2 9).dequeued = 0 := by
  have h := shutdown_before_start_skips_loop (fun _ => true) emptyFilter
    [priorRun] 5 9 2 [QueueItem.ev ⟨"state_changed", some "light.kitchen", 3⟩]
    (by decide)
  exact ⟨h.1, (h.2 _ h.1).1⟩
